import Mathlib

/-!
Verification of the habanero Crossref client (crossref.py) against its
natural-language specification.

The file embeds, as executable Lean definitions, the resource methods of
the `Crossref` class found in src/habanero/crossref/crossref.py, together
with the parts of the request machinery that crossref.py calls but whose
source modules (request.py, request_class.py, habanero_utils.py) are not
part of the provided sources; those parts are modelled from the
specification and are marked as such in their doc comments.
-/

namespace Habanero

/-- Modelled from the spec: a Page (spec section 3) restricted to the two
fields the Cursor Pager reads — the item list (whose length is the
reported item count) and the optional next-cursor token (spec section 6
response envelope). The pager code itself (Request.do_request in
request_class.py) is not under src. -/
structure CrPage where
  items : List String
  nextCursor : Option String

/-- Modelled from the spec: the Cursor Pager loop (spec section 4.4),
including the zero-cap rule of sections 4.4 (rationale) and 8. A server is
a function from the current cursor token to the page it returns. The cap
is tested before each fetch, so a cap that is already met issues no
further requests (and a cap of zero issues none at all); a fetched
non-empty page is always appended whole; an empty page, an absent
next-cursor token, or a token equal to the current cursor stops the loop.
Returns the accumulated PageSequence together with the number of
Dispatcher calls made. -/
def cursorRun (server : String → CrPage) (cursorMax fetched : Nat) (cursor : String) :
    List CrPage × Nat :=
  if _h1 : cursorMax ≤ fetched then ([], 0)
  else if _h2 : (server cursor).items.length = 0 then ([], 1)
  else
    match (server cursor).nextCursor with
    | none => ([server cursor], 1)
    | some next =>
      if _h4 : next = cursor then ([server cursor], 1)
      else
        ((server cursor) ::
          (cursorRun server cursorMax (fetched + (server cursor).items.length) next).1,
         (cursorRun server cursorMax (fetched + (server cursor).items.length) next).2 + 1)
termination_by cursorMax - fetched
decreasing_by
  all_goals omega

/-- Modelled from the spec: entry point of the Cursor Pager — START
initializes the fetched count to zero (spec section 4.4) and the loop is
run from the caller-supplied starting cursor token. -/
def cursorPager (server : String → CrPage) (cursorMax : Nat) (start : String) :
    List CrPage × Nat :=
  cursorRun server cursorMax 0 start

theorem cursorRun_stop (server : String → CrPage) (cursorMax fetched : Nat) (cursor : String)
    (h : cursorMax ≤ fetched) : cursorRun server cursorMax fetched cursor = ([], 0) := by
  rw [cursorRun]
  simp [h]

theorem cursorRun_empty (server : String → CrPage) (cursorMax fetched : Nat) (cursor : String)
    (h1 : fetched < cursorMax) (h2 : (server cursor).items.length = 0) :
    cursorRun server cursorMax fetched cursor = ([], 1) := by
  rw [cursorRun]
  simp [Nat.not_le_of_lt h1, h2]

theorem cursorRun_nonext (server : String → CrPage) (cursorMax fetched : Nat) (cursor : String)
    (h1 : fetched < cursorMax) (h2 : (server cursor).items.length ≠ 0)
    (h3 : (server cursor).nextCursor = none) :
    cursorRun server cursorMax fetched cursor = ([server cursor], 1) := by
  rw [cursorRun]
  simp [Nat.not_le_of_lt h1, h2, h3]

theorem cursorRun_stall (server : String → CrPage) (cursorMax fetched : Nat) (cursor : String)
    (h1 : fetched < cursorMax) (h2 : (server cursor).items.length ≠ 0)
    (h3 : (server cursor).nextCursor = some cursor) :
    cursorRun server cursorMax fetched cursor = ([server cursor], 1) := by
  rw [cursorRun]
  simp [Nat.not_le_of_lt h1, h2, h3]

theorem cursorRun_step (server : String → CrPage) (cursorMax fetched : Nat)
    (cursor next : String)
    (h1 : fetched < cursorMax) (h2 : (server cursor).items.length ≠ 0)
    (h3 : (server cursor).nextCursor = some next) (h4 : next ≠ cursor) :
    cursorRun server cursorMax fetched cursor =
      ((server cursor) ::
        (cursorRun server cursorMax (fetched + (server cursor).items.length) next).1,
       (cursorRun server cursorMax (fetched + (server cursor).items.length) next).2 + 1) := by
  rw [cursorRun]
  simp [Nat.not_le_of_lt h1, h2, h3, h4]

theorem cursorRun_calls_le (server : String → CrPage) (cursorMax : Nat) :
    ∀ (d fetched : Nat) (cursor : String), cursorMax - fetched ≤ d →
      (cursorRun server cursorMax fetched cursor).2 ≤ cursorMax - fetched := by
  intro d
  induction d with
  | zero =>
    intro fetched cursor h
    rw [cursorRun_stop server cursorMax fetched cursor (by omega)]
    simp
  | succ d ih =>
    intro fetched cursor h
    by_cases hle : cursorMax ≤ fetched
    · rw [cursorRun_stop _ _ _ _ hle]
      simp
    · by_cases hz : (server cursor).items.length = 0
      · rw [cursorRun_empty _ _ _ _ (by omega) hz]
        simp
        omega
      · cases hnc : (server cursor).nextCursor with
        | none =>
          rw [cursorRun_nonext _ _ _ _ (by omega) hz hnc]
          simp
          omega
        | some next =>
          by_cases heq : next = cursor
          · subst heq
            rw [cursorRun_stall _ _ _ _ (by omega) hz hnc]
            simp
            omega
          · rw [cursorRun_step _ _ _ _ _ (by omega) hz hnc heq]
            have hrec := ih (fetched + (server cursor).items.length) next (by omega)
            simp
            omega

/-- The claim C1: against a server that always returns pages of exactly
100 items with an always-advancing cursor token, a cap of cursor_max = 250
yields a PageSequence of exactly 3 pages with exactly 3 Dispatcher calls,
and the third page — which pushes the total over the cap — is included
whole (it is the untruncated server response for the third cursor). -/
theorem works_cursor_cap_250_three_pages (server : String → CrPage) (start : String)
    (h : ∀ cur, (server cur).items.length = 100 ∧
         ∃ nxt, (server cur).nextCursor = some nxt ∧ nxt ≠ cur) :
    ∃ t1 t2, (server start).nextCursor = some t1 ∧ (server t1).nextCursor = some t2 ∧
      cursorPager server 250 start = ([server start, server t1, server t2], 3) := by
  obtain ⟨len0, n1, hn1, hne1⟩ := h start
  obtain ⟨len1, n2, hn2, hne2⟩ := h n1
  obtain ⟨len2, n3, hn3, hne3⟩ := h n2
  refine ⟨n1, n2, hn1, hn2, ?_⟩
  unfold cursorPager
  rw [cursorRun_step server 250 0 start n1 (by omega) (by omega) hn1 hne1]
  rw [len0]
  norm_num
  rw [cursorRun_step server 250 100 n1 n2 (by omega) (by omega) hn2 hne2]
  rw [len1]
  norm_num
  rw [cursorRun_step server 250 200 n2 n3 (by omega) (by omega) hn3 hne3]
  rw [len2]
  norm_num
  rw [cursorRun_stop server 250 300 n3 (by omega)]
  simp

/-- A server that always answers with 100 items and a strictly longer
next-cursor token, used to witness the cap claim. -/
def srvHundred : String → CrPage :=
  fun cur => ⟨List.replicate 100 "d", some ("x" ++ cur)⟩

theorem works_cursor_cap_250_three_pages_witness :
    ∃ t1 t2, (srvHundred "*").nextCursor = some t1 ∧
      (srvHundred t1).nextCursor = some t2 ∧
      cursorPager srvHundred 250 "*" = ([srvHundred "*", srvHundred t1, srvHundred t2], 3) :=
  works_cursor_cap_250_three_pages srvHundred "*"
    (fun cur =>
      ⟨by simp [srvHundred], "x" ++ cur, rfl, by
        intro hcontra
        have hlen := congrArg String.length hcontra
        rw [String.length_append] at hlen
        have hx : "x".length = 1 := rfl
        omega⟩)

/-- The claim C2: the cursor-paging loop terminates for every server
behaviour — an empty page always transitions to DONE (even when a
next-cursor token is present and the cap is far from reached); an absent
or stalled next-cursor token transitions to DONE; and for every server
whatsoever the number of Dispatcher calls is bounded by the remaining cap,
so no sequence of server responses makes the pager issue requests
forever. -/
theorem cursor_loop_always_terminates :
    (∀ (server : String → CrPage) (cursorMax fetched : Nat) (cursor : String),
        fetched < cursorMax → (server cursor).items.length = 0 →
        cursorRun server cursorMax fetched cursor = ([], 1)) ∧
    (∀ (server : String → CrPage) (cursorMax fetched : Nat) (cursor : String),
        fetched < cursorMax → (server cursor).items.length ≠ 0 →
        ((server cursor).nextCursor = none ∨ (server cursor).nextCursor = some cursor) →
        cursorRun server cursorMax fetched cursor = ([server cursor], 1)) ∧
    (∀ (server : String → CrPage) (cursorMax fetched : Nat) (cursor : String),
        (cursorRun server cursorMax fetched cursor).2 ≤ cursorMax - fetched) := by
  refine ⟨?_, ?_, ?_⟩
  · intro server cursorMax fetched cursor h1 h2
    exact cursorRun_empty server cursorMax fetched cursor h1 h2
  · intro server cursorMax fetched cursor h1 h2 h3
    cases h3 with
    | inl hnone => exact cursorRun_nonext server cursorMax fetched cursor h1 h2 hnone
    | inr hstall => exact cursorRun_stall server cursorMax fetched cursor h1 h2 hstall
  · intro server cursorMax fetched cursor
    exact cursorRun_calls_le server cursorMax (cursorMax - fetched) fetched cursor (le_refl _)

/-- A server that always answers with an empty page yet offers a
next-cursor token. -/
def srvEmptyPage : String → CrPage :=
  fun _ => ⟨[], some "t"⟩

/-- A server whose next-cursor token never advances (always equal to the
cursor it was asked with). -/
def srvStalled : String → CrPage :=
  fun cur => ⟨["d"], some cur⟩

theorem cursor_loop_always_terminates_witness :
    cursorRun srvEmptyPage 10 0 "*" = ([], 1) ∧
    cursorRun srvStalled 10 0 "*" = ([srvStalled "*"], 1) ∧
    (cursorRun srvStalled 10 0 "*").2 ≤ 10 - 0 :=
  ⟨cursor_loop_always_terminates.1 srvEmptyPage 10 0 "*" (by omega) (by simp [srvEmptyPage]),
   cursor_loop_always_terminates.2.1 srvStalled 10 0 "*" (by omega) (by simp [srvStalled])
     (Or.inr rfl),
   cursor_loop_always_terminates.2.2 srvStalled 10 0 "*"⟩

/-- The claim C5: a cursor-paged call with cursor_max = 0 yields the empty
PageSequence and makes zero Dispatcher calls, whatever the server does. -/
theorem zero_cap_empty_sequence_no_calls :
    ∀ (server : String → CrPage) (start : String),
      cursorPager server 0 start = ([], 0) := by
  intro server start
  unfold cursorPager
  exact cursorRun_stop server 0 0 start (le_refl 0)

/-- The shape of a request-flow result: either one bare page body or an
ordered list of bodies (spec section 3, ResultSet). -/
inductive ResultSet (R : Type) where
  | bare (r : R)
  | many (rs : List R)

/-- Modelled from the spec: Multi-ID Fan-out (spec section 4.5, in
request.py which is not under src). When fewer than two identifiers are
supplied the per-identifier call runs once — with the sole identifier if
there is one — and its bare result is returned unwrapped; with two or more
identifiers, one call is made per identifier and the results are listed in
input order. -/
def fanOut {R : Type} (ids : List String) (f : Option String → R) : ResultSet R :=
  if ids.length ≤ 1 then ResultSet.bare (f ids.head?)
  else ResultSet.many (ids.map (fun i => f (some i)))

/-- The validation errors raised before any network call (spec section 7). -/
inductive CrError where
  | unknownParameter (name : String)
deriving DecidableEq

/-- Modelled from the spec: check_kwargs (habanero_utils.py, not under
src) scans the supplied keyword-argument names for any name in the given
disallowed list and reports the first offender, which the calling resource
method rejects with an unknown-parameter error before any network call
(spec section 7). Keyword arguments are represented by their names; their
values never matter to the check. -/
def check_kwargs (keys kwargs : List String) : Option String :=
  keys.find? (fun k => kwargs.contains k)

/-- Filter mappings are ordered name/value pairs (spec section 3); the
resource methods never inspect them, only forward them. -/
abbrev Filt := List (String × String)

/-- The positional arguments a resource method passes to the request
function (request.py, not under src). Field names follow the parameter
names at the call sites in crossref.py. Trailing arguments a call site
omits are modelled from the spec as absent: no works flag, no cursor, no
cursor cap, and the agency-lookup flag off (spec sections 4.4 and 4.6
make the cursor and agency behaviour opt-in). -/
structure RequestArgs where
  base_url : String
  path : String
  ids : Option (List String) := none
  query : Option String := none
  filter : Option Filt := none
  offset : Option Nat := none
  limit : Option Nat := none
  sample : Option Nat := none
  sort : Option String := none
  order : Option String := none
  facet : Option Bool := none
  works : Option Bool := none
  cursor : Option String := none
  cursor_max : Option Nat := none
  agency : Option Bool := none
  kwargs : List String := []
deriving DecidableEq

/-- The positional arguments works passes to the Request class
constructor (request_class.py, not under src) before invoking do_request,
in the order of the call site in crossref.py. -/
structure RequestClassArgs where
  base_url : String
  path : String
  query : Option String := none
  filter : Option Filt := none
  offset : Option Nat := none
  limit : Option Nat := none
  sample : Option Nat := none
  sort : Option String := none
  order : Option String := none
  facet : Option Bool := none
  cursor : Option String := none
  cursor_max : Option Nat := none
  kwargs : List String := []
deriving DecidableEq

/-- The request-flow invocation a resource method performs: either a call
of the request function or a Request-class do_request call. -/
inductive Flow where
  | requestFn (a : RequestArgs)
  | requestClass (a : RequestClassArgs)
deriving DecidableEq

/-- The cursor argument handed to the request flow. -/
def Flow.cursorArg : Flow → Option String
  | .requestFn a => a.cursor
  | .requestClass a => a.cursor

/-- The cursor_max argument handed to the request flow. -/
def Flow.cursorMaxArg : Flow → Option Nat
  | .requestFn a => a.cursor_max
  | .requestClass a => a.cursor_max

/-- Modelled from the spec: the Cursor Pager wraps the Dispatcher exactly
when a cursor is requested in the flow (spec section 2 control flow), so
deep paging is in effect for an invocation precisely when its cursor
argument is present. -/
def Flow.pagerRequested (f : Flow) : Bool :=
  f.cursorArg.isSome

/-- The Crossref client state set by the constructor: a base URL and an
optional API key (crossref.py lines 47-50). -/
structure Crossref where
  base_url : String := "http://api.crossref.org"
  api_key : Option String := none

/-- The parameters of Crossref.works with their defaults (crossref.py
lines 56-59): no works flag exists on this method, and cursor_max
defaults to 5000. -/
structure WorksArgs where
  ids : Option (List String) := none
  query : Option String := none
  filter : Option Filt := none
  offset : Option Nat := none
  limit : Option Nat := none
  sample : Option Nat := none
  sort : Option String := none
  order : Option String := none
  facet : Option Bool := none
  cursor : Option String := none
  cursor_max : Option Nat := some 5000
  kwargs : List String := []

/-- Crossref.works (crossref.py lines 155-162): when ids is not None the
method calls the request function, passing None for the works, cursor and
cursor_max slots; otherwise it builds a Request object carrying the
cursor and cursor_max supplied by the caller and invokes do_request. -/
def Crossref.works (c : Crossref) (a : WorksArgs) : Flow :=
  if a.ids.isSome then
    Flow.requestFn
      { base_url := c.base_url, path := "/works/", ids := a.ids, query := a.query,
        filter := a.filter, offset := a.offset, limit := a.limit, sample := a.sample,
        sort := a.sort, order := a.order, facet := a.facet, works := none,
        cursor := none, cursor_max := none, kwargs := a.kwargs }
  else
    Flow.requestClass
      { base_url := c.base_url, path := "/works/", query := a.query, filter := a.filter,
        offset := a.offset, limit := a.limit, sample := a.sample, sort := a.sort,
        order := a.order, facet := a.facet, cursor := a.cursor,
        cursor_max := a.cursor_max, kwargs := a.kwargs }

/-- The shared parameter list of Crossref.members, funders, journals and
types with its defaults (crossref.py lines 164-167, 279-282, 336-339,
402-405): a works flag defaulting to False and cursor_max defaulting to
5000. -/
structure StdArgs where
  ids : Option (List String) := none
  query : Option String := none
  filter : Option Filt := none
  offset : Option Nat := none
  limit : Option Nat := none
  sample : Option Nat := none
  sort : Option String := none
  order : Option String := none
  facet : Option Bool := none
  works : Bool := false
  cursor : Option String := none
  cursor_max : Option Nat := some 5000
  kwargs : List String := []

/-- The argument record the four plain list methods pass to the request
function, differing only in the resource path. -/
def stdRequest (c : Crossref) (path : String) (a : StdArgs) : RequestArgs :=
  { base_url := c.base_url, path := path, ids := a.ids, query := a.query,
    filter := a.filter, offset := a.offset, limit := a.limit, sample := a.sample,
    sort := a.sort, order := a.order, facet := a.facet, works := some a.works,
    cursor := a.cursor, cursor_max := a.cursor_max, kwargs := a.kwargs }

/-- Crossref.members (crossref.py lines 214-216). -/
def Crossref.members (c : Crossref) (a : StdArgs) : RequestArgs :=
  stdRequest c "/members/" a

/-- Crossref.funders (crossref.py lines 332-334). -/
def Crossref.funders (c : Crossref) (a : StdArgs) : RequestArgs :=
  stdRequest c "/funders/" a

/-- Crossref.journals (crossref.py lines 398-400). -/
def Crossref.journals (c : Crossref) (a : StdArgs) : RequestArgs :=
  stdRequest c "/journals/" a

/-- Crossref.types (crossref.py lines 443-445). -/
def Crossref.types (c : Crossref) (a : StdArgs) : RequestArgs :=
  stdRequest c "/types/" a

/-- The parameter list of Crossref.prefixes with its defaults
(crossref.py lines 218-221): unlike the other list methods it has no
query parameter, so a query can only arrive through the keyword bag. -/
structure PrefixesArgs where
  ids : Option (List String) := none
  filter : Option Filt := none
  offset : Option Nat := none
  limit : Option Nat := none
  sample : Option Nat := none
  sort : Option String := none
  order : Option String := none
  facet : Option Bool := none
  works : Bool := false
  cursor : Option String := none
  cursor_max : Option Nat := some 5000
  kwargs : List String := []

/-- Crossref.prefixes (crossref.py lines 273-277): rejects a query keyword
argument via check_kwargs before calling the request function with
query = None. -/
def Crossref.prefixes (c : Crossref) (a : PrefixesArgs) : Except CrError RequestArgs :=
  match check_kwargs ["query"] a.kwargs with
  | some n => Except.error (CrError.unknownParameter n)
  | none =>
      Except.ok
        { base_url := c.base_url, path := "/prefixes/", ids := a.ids, query := none,
          filter := a.filter, offset := a.offset, limit := a.limit, sample := a.sample,
          sort := a.sort, order := a.order, facet := a.facet, works := some a.works,
          cursor := a.cursor, cursor_max := a.cursor_max, kwargs := a.kwargs }

/-- The parameter list of Crossref.licenses with its defaults
(crossref.py lines 447-449). -/
structure LicensesArgs where
  query : Option String := none
  offset : Option Nat := none
  limit : Option Nat := none
  sample : Option Nat := none
  sort : Option String := none
  order : Option String := none
  facet : Option Bool := none
  kwargs : List String := []

/-- Crossref.licenses (crossref.py lines 476-480): rejects the ids, filter
and works keyword arguments via check_kwargs, then calls the request
function with no ids, no filter, no sample, no works flag, no cursor and
no cursor cap. -/
def Crossref.licenses (c : Crossref) (a : LicensesArgs) : Except CrError RequestArgs :=
  match check_kwargs ["ids", "filter", "works"] a.kwargs with
  | some n => Except.error (CrError.unknownParameter n)
  | none =>
      Except.ok
        { base_url := c.base_url, path := "/licenses/", ids := none, query := a.query,
          filter := none, offset := a.offset, limit := a.limit, sample := none,
          sort := a.sort, order := a.order, facet := a.facet, works := none,
          cursor := none, cursor_max := none, kwargs := a.kwargs }

/-- Modelled from the spec: the non-cursor request flow of the request
function (request.py, not under src) — the Multi-ID Fan-out around one
Dispatcher call per identifier (spec sections 2 and 4.5). The Dispatcher
is abstracted as a function of the identifier (if any) and the
agency-lookup flag, the two request ingredients that vary across the
fan-out; the second component counts Dispatcher calls. Cursor mode is
modelled separately by cursorRun, and the callers below all request no
cursor. -/
def request {R : Type} (dispatch : Option String → Bool → R) (a : RequestArgs) :
    ResultSet R × Nat :=
  match a.ids with
  | none => (ResultSet.bare (dispatch none (a.agency.getD false)), 1)
  | some l =>
      (fanOut l (fun i => dispatch i (a.agency.getD false)),
       if l.length ≤ 1 then 1 else l.length)

/-- The keyword-argument names Crossref.registration_agency disallows
(crossref.py lines 499-500). -/
def raCheckKeys : List String :=
  ["query", "filter", "offset", "limit", "sample", "sort", "order", "facet", "works"]

/-- The argument record Crossref.registration_agency passes to the request
function (crossref.py lines 501-503): the works path, the identifiers,
None for every search parameter, and True for the agency-lookup flag. -/
def raRequestArgs (c : Crossref) (ids : List String) (kwargs : List String) : RequestArgs :=
  { base_url := c.base_url, path := "/works/", ids := some ids, query := none,
    filter := none, offset := none, limit := none, sample := none, sort := none,
    order := none, facet := none, works := none, cursor := none, cursor_max := none,
    agency := some true, kwargs := kwargs }

/-- The validation stage of Crossref.registration_agency: the
check_kwargs call followed by the construction of the request-function
arguments (crossref.py lines 499-503). -/
def Crossref.registration_agency_args (c : Crossref) (ids : List String)
    (kwargs : List String) : Except CrError RequestArgs :=
  match check_kwargs raCheckKeys kwargs with
  | some n => Except.error (CrError.unknownParameter n)
  | none => Except.ok (raRequestArgs c ids kwargs)

/-- The agency field of the response envelope read by
registration_agency. -/
structure RaAgency where
  label : String

/-- The message of the response envelope read by registration_agency. -/
structure RaMessage where
  agency : RaAgency

/-- The response envelope fields registration_agency projects
(crossref.py line 509 reads message.agency.label of each result). -/
structure RaResp where
  message : RaMessage

/-- Crossref.registration_agency (crossref.py lines 482-509): validate
the keyword bag, run the request flow over the identifiers with the
agency-lookup flag, wrap a bare (non-list) result into a singleton list,
and project every element down to its agency label. -/
def Crossref.registration_agency (c : Crossref) (ids : List String) (kwargs : List String)
    (dispatch : Option String → Bool → RaResp) : Except CrError (List String) :=
  match c.registration_agency_args ids kwargs with
  | Except.error e => Except.error e
  | Except.ok a =>
      match (request dispatch a).1 with
      | ResultSet.bare r => Except.ok [r.message.agency.label]
      | ResultSet.many rs => Except.ok (rs.map (fun z => z.message.agency.label))

/-- An item of the works response envelope, holding the DOI field
random_dois projects (crossref.py line 533). -/
structure WorkItem where
  DOI : String

/-- The message of the works response envelope read by random_dois. -/
structure WMessage where
  items : List WorkItem

/-- The works response envelope read by random_dois. -/
structure WResp where
  message : WMessage

/-- The parameters of Crossref.random_dois with their defaults
(crossref.py line 511): the sample count defaults to 10. -/
structure RandomArgs where
  sample : Nat := 10
  kwargs : List String := []

/-- The argument record Crossref.random_dois passes to the request
function (crossref.py lines 530-532): the works path, no identifiers, no
search parameters except the sample count, the facet slot None, and True
in the works slot; no cursor and no cursor cap are supplied. -/
def randomDoisArgs (c : Crossref) (a : RandomArgs) : RequestArgs :=
  { base_url := c.base_url, path := "/works/", ids := none, query := none,
    filter := none, offset := none, limit := none, sample := some a.sample,
    sort := none, order := none, facet := none, works := some true,
    cursor := none, cursor_max := none, kwargs := a.kwargs }

/-- Crossref.random_dois (crossref.py lines 511-533): one request-flow
call with the sample parameter set, then the DOI of every item of the
returned page, in item order. -/
def Crossref.random_dois (c : Crossref) (a : RandomArgs)
    (dispatch : Option String → Bool → WResp) : List String :=
  match (request dispatch (randomDoisArgs c a)).1 with
  | ResultSet.bare r => r.message.items.map (fun z => z.DOI)
  | ResultSet.many _ => []

/-- A client built with the constructor defaults. -/
def cr0 : Crossref := {}

/-- The works parameters with every default in place. -/
def worksDefaults : WorksArgs := {}

/-- The shared list-method parameters with every default in place. -/
def stdDefaults : StdArgs := {}

/-- The prefixes parameters with every default in place. -/
def prefixesDefaults : PrefixesArgs := {}

/-- The licenses parameters with every default in place. -/
def licensesDefaults : LicensesArgs := {}

/-- The random_dois parameters with every default in place. -/
def randomArgsDefault : RandomArgs := {}

/-- The claim C6: the fan-out returns the bare per-identifier result,
unwrapped, whenever at most one identifier is supplied (the call is made
once, on the sole identifier if there is one), and an ordered list of the
per-identifier results, in input order, whenever two or more identifiers
are supplied. -/
theorem fan_out_shape :
    ∀ (R : Type) (f : Option String → R) (ids : List String),
      (ids.length ≤ 1 → fanOut ids f = ResultSet.bare (f ids.head?)) ∧
      (2 ≤ ids.length →
        fanOut ids f = ResultSet.many (ids.map (fun i => f (some i))) ∧
        (ids.map (fun i => f (some i))).length = ids.length) := by
  intro R f ids
  constructor
  · intro h
    unfold fanOut
    rw [if_pos h]
  · intro h
    unfold fanOut
    rw [if_neg (by omega)]
    exact ⟨rfl, by simp⟩

theorem fan_out_shape_witness :
    fanOut ["10.1/a"] (fun o => o) = ResultSet.bare (some "10.1/a") ∧
    fanOut ["10.1/a", "10.1/b"] (fun o => o) =
      ResultSet.many [some "10.1/a", some "10.1/b"] :=
  ⟨(fan_out_shape (Option String) (fun o => o) ["10.1/a"]).1 (by decide),
   ((fan_out_shape (Option String) (fun o => o) ["10.1/a", "10.1/b"]).2 (by decide)).1⟩

/-- The arguments of the counterexample call: identifiers together with a
cursor request and an explicit cap. -/
def c3Args : WorksArgs :=
  { ids := some ["10.1/a"], cursor := some "*", cursor_max := some 250 }

/-- Counterexample to the claim C3: a works call that requests deep paging
(cursor set to the sentinel, cursor_max set to 250) while also supplying
an identifier reaches the request flow with cursor and cursor_max dropped
to None and the Cursor Pager not in effect. -/
theorem works_ids_drop_cursor_cex :
    c3Args.cursor = some "*" ∧ c3Args.cursor_max = some 250 ∧
    c3Args.ids = some ["10.1/a"] ∧
    (Crossref.works cr0 c3Args).cursorArg = none ∧
    (Crossref.works cr0 c3Args).cursorMaxArg = none ∧
    (Crossref.works cr0 c3Args).pagerRequested = false :=
  ⟨rfl, rfl, rfl, rfl, rfl, rfl⟩

/-- The claim C3 as amended: works forwards the cursor and cursor_max of
the caller into the pager-capable Request flow exactly when no
identifiers are supplied; when identifiers are supplied it routes to the
plain request function and passes None for cursor and cursor_max, so no
deep paging takes place. -/
theorem works_cursor_forwarding (c : Crossref) (a : WorksArgs) :
    (a.ids = none →
      c.works a = Flow.requestClass
        { base_url := c.base_url, path := "/works/", query := a.query,
          filter := a.filter, offset := a.offset, limit := a.limit,
          sample := a.sample, sort := a.sort, order := a.order, facet := a.facet,
          cursor := a.cursor, cursor_max := a.cursor_max, kwargs := a.kwargs }) ∧
    (a.ids ≠ none →
      (c.works a).cursorArg = none ∧ (c.works a).cursorMaxArg = none ∧
      (c.works a).pagerRequested = false) := by
  constructor
  · intro h
    simp [Crossref.works, h]
  · intro h
    have hs : a.ids.isSome = true := Option.isSome_iff_ne_none.mpr h
    simp [Crossref.works, hs, Flow.cursorArg, Flow.cursorMaxArg, Flow.pagerRequested]

theorem works_cursor_forwarding_witness :
    Crossref.works cr0 { worksDefaults with cursor := some "*", cursor_max := some 250 } =
      Flow.requestClass
        { base_url := "http://api.crossref.org", path := "/works/",
          cursor := some "*", cursor_max := some 250 } ∧
    (Crossref.works cr0 c3Args).cursorArg = none :=
  ⟨(works_cursor_forwarding cr0
      { worksDefaults with cursor := some "*", cursor_max := some 250 }).1 rfl,
   ((works_cursor_forwarding cr0 c3Args).2 (by simp [c3Args])).1⟩

/-- Counterexample to the claim C4: a client constructed with an API key
stores the key, yet every resource operation produces a request-flow
invocation identical to that of a client with no key configured, so the
key is attached to no request. -/
theorem api_key_never_attached_cex :
    (⟨"http://api.crossref.org", some "123456"⟩ : Crossref).api_key = some "123456" ∧
    Crossref.works ⟨"http://api.crossref.org", some "123456"⟩ worksDefaults =
      Crossref.works ⟨"http://api.crossref.org", none⟩ worksDefaults ∧
    Crossref.members ⟨"http://api.crossref.org", some "123456"⟩ stdDefaults =
      Crossref.members ⟨"http://api.crossref.org", none⟩ stdDefaults ∧
    Crossref.funders ⟨"http://api.crossref.org", some "123456"⟩ stdDefaults =
      Crossref.funders ⟨"http://api.crossref.org", none⟩ stdDefaults ∧
    Crossref.journals ⟨"http://api.crossref.org", some "123456"⟩ stdDefaults =
      Crossref.journals ⟨"http://api.crossref.org", none⟩ stdDefaults ∧
    Crossref.types ⟨"http://api.crossref.org", some "123456"⟩ stdDefaults =
      Crossref.types ⟨"http://api.crossref.org", none⟩ stdDefaults ∧
    Crossref.prefixes ⟨"http://api.crossref.org", some "123456"⟩ prefixesDefaults =
      Crossref.prefixes ⟨"http://api.crossref.org", none⟩ prefixesDefaults ∧
    Crossref.licenses ⟨"http://api.crossref.org", some "123456"⟩ licensesDefaults =
      Crossref.licenses ⟨"http://api.crossref.org", none⟩ licensesDefaults ∧
    Crossref.registration_agency_args ⟨"http://api.crossref.org", some "123456"⟩
        ["10.1/a"] [] =
      Crossref.registration_agency_args ⟨"http://api.crossref.org", none⟩ ["10.1/a"] [] ∧
    randomDoisArgs ⟨"http://api.crossref.org", some "123456"⟩ randomArgsDefault =
      randomDoisArgs ⟨"http://api.crossref.org", none⟩ randomArgsDefault :=
  ⟨rfl, rfl, rfl, rfl, rfl, rfl, rfl, rfl, rfl, rfl⟩

/-- The claim C4 as amended: a configured API key is stored on the client
but never forwarded into the request flow — the invocation every resource
operation produces is the same whether or not a key is configured, so no
request of the client carries the key. -/
theorem api_key_not_forwarded :
    ∀ (url : String) (key : Option String),
      (∀ a : WorksArgs, Crossref.works ⟨url, key⟩ a = Crossref.works ⟨url, none⟩ a) ∧
      (∀ a : StdArgs,
        Crossref.members ⟨url, key⟩ a = Crossref.members ⟨url, none⟩ a ∧
        Crossref.funders ⟨url, key⟩ a = Crossref.funders ⟨url, none⟩ a ∧
        Crossref.journals ⟨url, key⟩ a = Crossref.journals ⟨url, none⟩ a ∧
        Crossref.types ⟨url, key⟩ a = Crossref.types ⟨url, none⟩ a) ∧
      (∀ a : PrefixesArgs, Crossref.prefixes ⟨url, key⟩ a = Crossref.prefixes ⟨url, none⟩ a) ∧
      (∀ a : LicensesArgs, Crossref.licenses ⟨url, key⟩ a = Crossref.licenses ⟨url, none⟩ a) ∧
      (∀ (ids kwargs : List String) (dispatch : Option String → Bool → RaResp),
        Crossref.registration_agency ⟨url, key⟩ ids kwargs dispatch =
          Crossref.registration_agency ⟨url, none⟩ ids kwargs dispatch) ∧
      (∀ (a : RandomArgs) (dispatch : Option String → Bool → WResp),
        Crossref.random_dois ⟨url, key⟩ a dispatch =
          Crossref.random_dois ⟨url, none⟩ a dispatch) :=
  fun _ _ =>
    ⟨fun _ => rfl, fun _ => ⟨rfl, rfl, rfl, rfl⟩, fun _ => rfl, fun _ => rfl,
     fun _ _ _ => rfl, fun _ _ => rfl⟩

theorem check_kwargs_hits (keys kwargs : List String) (n : String)
    (h1 : n ∈ keys) (h2 : n ∈ kwargs) :
    ∃ m, m ∈ kwargs ∧ check_kwargs keys kwargs = some m := by
  unfold check_kwargs
  have hsome : (keys.find? fun k => kwargs.contains k).isSome := by
    rw [List.find?_isSome]
    exact ⟨n, h1, by simpa using h2⟩
  obtain ⟨m, hm⟩ := Option.isSome_iff_exists.mp hsome
  refine ⟨m, ?_, hm⟩
  have hp := List.find?_some hm
  simpa using hp

/-- The claim C7: a resource operation given a keyword argument it does
not recognize fails with an unknown-parameter error before any network
call — prefixes rejects query; licenses rejects ids, filter and works;
registration_agency rejects every search parameter, its validation stage
yields an error instead of a request invocation, and its result is then
independent of the Dispatcher, so no network call can have been made. -/
theorem unknown_parameter_rejected :
    (∀ (c : Crossref) (a : PrefixesArgs), "query" ∈ a.kwargs →
      c.prefixes a = Except.error (CrError.unknownParameter "query")) ∧
    (∀ (c : Crossref) (a : LicensesArgs) (n : String),
      n ∈ ["ids", "filter", "works"] → n ∈ a.kwargs →
      ∃ m, m ∈ a.kwargs ∧ c.licenses a = Except.error (CrError.unknownParameter m)) ∧
    (∀ (c : Crossref) (ids kwargs : List String) (n : String),
      n ∈ raCheckKeys → n ∈ kwargs →
      (∃ m, m ∈ kwargs ∧
        c.registration_agency_args ids kwargs =
          Except.error (CrError.unknownParameter m)) ∧
      (∀ d1 d2 : Option String → Bool → RaResp,
        c.registration_agency ids kwargs d1 = c.registration_agency ids kwargs d2)) := by
  refine ⟨?_, ?_, ?_⟩
  · intro c a h
    have hc : a.kwargs.contains "query" = true := by simpa using h
    unfold Crossref.prefixes check_kwargs
    rw [List.find?_cons_of_pos _ hc]
  · intro c a n h1 h2
    obtain ⟨m, hmk, hck⟩ := check_kwargs_hits ["ids", "filter", "works"] a.kwargs n h1 h2
    refine ⟨m, hmk, ?_⟩
    unfold Crossref.licenses
    rw [hck]
  · intro c ids kwargs n h1 h2
    obtain ⟨m, hmk, hck⟩ := check_kwargs_hits raCheckKeys kwargs n h1 h2
    have hargs : c.registration_agency_args ids kwargs =
        Except.error (CrError.unknownParameter m) := by
      unfold Crossref.registration_agency_args
      rw [hck]
    refine ⟨⟨m, hmk, hargs⟩, ?_⟩
    intro d1 d2
    unfold Crossref.registration_agency
    rw [hargs]

theorem unknown_parameter_rejected_witness :
    Crossref.prefixes cr0 { prefixesDefaults with kwargs := ["query"] } =
      Except.error (CrError.unknownParameter "query") ∧
    (∃ m, m ∈ (["works"] : List String) ∧
      Crossref.licenses cr0 { licensesDefaults with kwargs := ["works"] } =
        Except.error (CrError.unknownParameter m)) ∧
    (∃ m, m ∈ (["sort"] : List String) ∧
      Crossref.registration_agency_args cr0 ["10.1/a"] ["sort"] =
        Except.error (CrError.unknownParameter m)) :=
  ⟨unknown_parameter_rejected.1 cr0 { prefixesDefaults with kwargs := ["query"] }
     (by simp [prefixesDefaults]),
   unknown_parameter_rejected.2.1 cr0 { licensesDefaults with kwargs := ["works"] } "works"
     (by simp) (by simp [licensesDefaults]),
   (unknown_parameter_rejected.2.2 cr0 ["10.1/a"] ["sort"] "sort"
     (by simp [raCheckKeys]) (by simp)).1⟩

/-- The claim C8: for every non-empty identifier sequence, the
registration-agency operation runs the fan-out with the agency-lookup
flag set and no query, filter or sort parameters, and returns a list of
agency label strings, one per identifier in input order — the
single-identifier case is wrapped into a list too, unlike the bare shape
of the ordinary fan-out. -/
theorem registration_agency_labels :
    ∀ (c : Crossref) (ids kwargs : List String)
      (dispatch : Option String → Bool → RaResp),
      check_kwargs raCheckKeys kwargs = none → 1 ≤ ids.length →
      c.registration_agency ids kwargs dispatch =
        Except.ok (ids.map (fun i => (dispatch (some i) true).message.agency.label)) ∧
      (raRequestArgs c ids kwargs).query = none ∧
      (raRequestArgs c ids kwargs).filter = none ∧
      (raRequestArgs c ids kwargs).sort = none ∧
      (raRequestArgs c ids kwargs).agency = some true := by
  intro c ids kwargs dispatch hchk hlen
  refine ⟨?_, rfl, rfl, rfl, rfl⟩
  cases ids with
  | nil => simp at hlen
  | cons i rest =>
    cases rest with
    | nil =>
      simp [Crossref.registration_agency, Crossref.registration_agency_args, hchk,
        request, raRequestArgs, fanOut]
    | cons j t =>
      simp [Crossref.registration_agency, Crossref.registration_agency_args, hchk,
        request, raRequestArgs, fanOut]

/-- A Dispatcher stub whose every response carries the agency label
Crossref. -/
def raDispatchW : Option String → Bool → RaResp := fun _ _ => ⟨⟨⟨"Crossref"⟩⟩⟩

theorem registration_agency_labels_witness :
    Crossref.registration_agency cr0 ["10.1/a", "10.1/b"] [] raDispatchW =
      Except.ok ["Crossref", "Crossref"] ∧
    (raRequestArgs cr0 ["10.1/a", "10.1/b"] []).agency = some true := by
  have h := registration_agency_labels cr0 ["10.1/a", "10.1/b"] [] raDispatchW rfl
    (by decide)
  exact ⟨h.1, h.2.2.2.2⟩

/-- The claim C9: random_dois issues exactly one request-flow call — a
non-cursor call with no identifiers and the sample parameter set to the
count supplied by the caller, which defaults to 10 — and returns the DOI
strings of the items of the single returned page, in item order. -/
theorem random_dois_single_sample :
    ∀ (c : Crossref) (a : RandomArgs) (dispatch : Option String → Bool → WResp),
      c.random_dois a dispatch =
        (dispatch none false).message.items.map (fun z => z.DOI) ∧
      (request dispatch (randomDoisArgs c a)).2 = 1 ∧
      (randomDoisArgs c a).sample = some a.sample ∧
      (randomDoisArgs c a).cursor = none ∧
      (randomDoisArgs c a).ids = none ∧
      randomArgsDefault.sample = 10 :=
  fun _ _ _ => ⟨rfl, rfl, rfl, rfl, rfl, rfl⟩

/-- The claim C10: works, members, prefixes, funders, journals and types
all default cursor_max to 5000 when the caller does not supply it; the
default is forwarded into the request flow of a cursor-paged call; and a
pager capped at 5000 issues no further request once 5000 records have
been accumulated. -/
theorem cursor_max_default_5000 :
    worksDefaults.cursor_max = some 5000 ∧
    stdDefaults.cursor_max = some 5000 ∧
    prefixesDefaults.cursor_max = some 5000 ∧
    (∀ c : Crossref,
      (c.works { worksDefaults with cursor := some "*" }).cursorMaxArg = some 5000) ∧
    (∀ c : Crossref,
      (c.members { stdDefaults with cursor := some "*" }).cursor_max = some 5000 ∧
      (c.funders { stdDefaults with cursor := some "*" }).cursor_max = some 5000 ∧
      (c.journals { stdDefaults with cursor := some "*" }).cursor_max = some 5000 ∧
      (c.types { stdDefaults with cursor := some "*" }).cursor_max = some 5000) ∧
    (∀ c : Crossref, ∃ r,
      c.prefixes { prefixesDefaults with cursor := some "*" } = Except.ok r ∧
      r.cursor_max = some 5000) ∧
    (∀ (server : String → CrPage) (fetched : Nat) (cursor : String),
      5000 ≤ fetched → cursorRun server 5000 fetched cursor = ([], 0)) := by
  refine ⟨rfl, rfl, rfl, fun c => rfl, fun c => ⟨rfl, rfl, rfl, rfl⟩,
    fun c => ⟨_, rfl, rfl⟩, ?_⟩
  intro server fetched cursor h
  exact cursorRun_stop server 5000 fetched cursor h

theorem cursor_max_default_5000_witness :
    cursorRun (fun _ => CrPage.mk [] none) 5000 5000 "*" = ([], 0) :=
  cursor_max_default_5000.2.2.2.2.2.2 (fun _ => CrPage.mk [] none) 5000 "*" (le_refl 5000)

end Habanero
